import Mathlib

/-!
Shallow embedding of the `management` package (client construction, default
configuration, certificate installation into the HTTP transport) and of the
generated `logic` package's `WorkflowRunsClient` operations, together with a
spec-modelled poll loop for `WaitForOperation`, whose implementation is not
part of the sources at hand (only its interface declaration is).

Conventions of the embedding:
* Go byte slices are `List Nat`; Go strings are `String`; `time.Duration`
  (an `int64` of nanoseconds) is `Int`.
* Fallible Go functions returning `(T, error)` become `Except String T`
  (errors are identified by their message, as produced by `errors.New`).
* `makeClient` mutates the caller-supplied `http.Client`'s transport; the
  embedding passes that state explicitly: the function returns, next to its
  `Except` result, the post-call value of the caller's `config.Client`.
* `tls.X509KeyPair` is Go standard-library code, external to this repository;
  it is a parameter of the construction functions.
-/

namespace Management

/-- Constant `DefaultAzureManagementURL` from the source. -/
def DefaultAzureManagementURL : String := "https://management.core.windows.net"

/-- One second, in nanoseconds, mirroring Go's `time.Second`. -/
def timeSecond : Int := 1000000000

/-- Constant `DefaultOperationPollInterval = time.Second * 30` from the source. -/
def DefaultOperationPollInterval : Int := timeSecond * 30

/-- Constant `DefaultAPIVersion` from the source. -/
def DefaultAPIVersion : String := "2014-10-01"

/-- Constant `DefaultUserAgent` from the source. -/
def DefaultUserAgent : String := "azure-sdk-for-go"

/-- A parsed `tls.Certificate` (result of `tls.X509KeyPair`); the PEM material
it was built from is kept as opaque bytes. -/
structure TLSCertificate where
  certPEM : List Nat
  keyPEM : List Nat
deriving Repr, DecidableEq

/-- The `tls.Config` value written into an `*http.Transport`:
only the `Certificates` field is set by this package. -/
structure TLSConfig where
  Certificates : List TLSCertificate
deriving Repr, DecidableEq

/-- The dynamic type of `(*http.Client).Transport`, as far as the type switch
in `makeClient` distinguishes it:
* `httpTransport` — a `*http.Transport`, carrying its `TLSClientConfig` field
  (`none` for Go `nil`);
* `flusher` — a transport whose dynamic type implements `http.Flusher`
  (the second case of the switch); `injectedCert` records a certificate
  handed to it via an injection call, `none` if that never happened;
* `otherTransport` — any other dynamic type (matches no case of the switch).
-/
inductive Transport where
  | httpTransport (TLSClientConfig : Option TLSConfig)
  | flusher (injectedCert : Option TLSCertificate)
  | otherTransport
deriving Repr, DecidableEq

/-- An `*http.Client`: only its `Transport` field matters to this package
(`none` models a `nil` transport). -/
structure HttpClient where
  Transport : Option Transport
deriving Repr, DecidableEq

/-- Value `http.DefaultClient`: the zero `http.Client`, whose `Transport` is `nil`. -/
def httpDefaultClient : HttpClient := { Transport := none }

/-- The `publishSettings` value built inside `makeClient`. -/
structure publishSettings where
  SubscriptionID : String
  SubscriptionCert : List Nat
  SubscriptionKey : List Nat
deriving Repr, DecidableEq

/-- Structure `ClientConfig` from the source. `Client` is the optional caller-supplied
`*http.Client` (`none` for Go `nil`). -/
structure ClientConfig where
  ManagementURL : String
  OperationPollInterval : Int
  UserAgent : String
  APIVersion : String
  Client : Option HttpClient
deriving Repr, DecidableEq

/-- The concrete `client` struct returned by `makeClient`; `httpClient` is the
Go field named `client`. -/
structure client where
  publishSettings : publishSettings
  config : ClientConfig
  httpClient : HttpClient
deriving Repr, DecidableEq

/-- The transport type switch at the end of `makeClient`:
for a `*http.Transport`, `t.TLSClientConfig` is overwritten with a config
holding exactly the parsed certificate; for an `http.Flusher` the case body
is empty in the source (the `t.InjectCert(&cert)` call is commented out), so
nothing happens; any other transport is untouched. -/
def setTransportCert (cert : TLSCertificate) (c : HttpClient) : HttpClient :=
  match c.Transport with
  | some (Transport.httpTransport _) =>
      { c with Transport := some (Transport.httpTransport (some ⟨[cert]⟩)) }
  | some (Transport.flusher ic) =>
      { c with Transport := some (Transport.flusher ic) }
  | _ => c

/-- Function `makeClient` from the source. `x509KeyPair` stands for `tls.X509KeyPair`
(Go standard library, external to the repository). The first component is the
Go return value `(Client, error)` (`Except.error` is the `(nil, err)` case);
the second component is the post-call value of the caller's `config.Client`,
recording the mutation of its transport (or its absence). -/
def makeClient (x509KeyPair : List Nat → List Nat → Except String TLSCertificate)
    (subscriptionID : String) (managementCert : List Nat) (config : ClientConfig) :
    Except String client × Option HttpClient :=
  if subscriptionID = "" then
    (Except.error "azure: subscription ID required", config.Client)
  else if managementCert.length = 0 then
    (Except.error "azure: management certificate required", config.Client)
  else
    let ps : publishSettings :=
      { SubscriptionID := subscriptionID,
        SubscriptionCert := managementCert,
        SubscriptionKey := managementCert }
    if config.ManagementURL = "" then
      (Except.error "azure: base URL required", config.Client)
    else if config.OperationPollInterval ≤ 0 then
      (Except.error "azure: operation polling interval must be a positive duration",
       config.Client)
    else if config.APIVersion = "" then
      (Except.error "azure: client configuration must specify an API version", config.Client)
    else
      let config :=
        if config.UserAgent = "" then { config with UserAgent := DefaultUserAgent } else config
      match x509KeyPair ps.SubscriptionCert ps.SubscriptionKey with
      | Except.error err => (Except.error err, config.Client)
      | Except.ok cert =>
        let c : HttpClient :=
          match config.Client with
          | none => { Transport := some (Transport.httpTransport none) }
          | some c0 => c0
        let c := setTransportCert cert c
        (Except.ok { publishSettings := ps, config := config, httpClient := c },
         config.Client.map (setTransportCert cert))

/-- Function `NewClientFromConfig` from the source. -/
def NewClientFromConfig (x509KeyPair : List Nat → List Nat → Except String TLSCertificate)
    (subscriptionID : String) (managementCert : List Nat) (config : ClientConfig) :
    Except String client × Option HttpClient :=
  makeClient x509KeyPair subscriptionID managementCert config

/-- Function `DefaultConfig` from the source (the `Client` field is left at its Go zero
value, `nil`). -/
def DefaultConfig : ClientConfig :=
  { ManagementURL := DefaultAzureManagementURL,
    OperationPollInterval := DefaultOperationPollInterval,
    APIVersion := DefaultAPIVersion,
    UserAgent := DefaultUserAgent,
    Client := none }

/-- Function `NewClient` from the source. -/
def NewClient (x509KeyPair : List Nat → List Nat → Except String TLSCertificate)
    (subscriptionID : String) (managementCert : List Nat) :
    Except String client × Option HttpClient :=
  NewClientFromConfig x509KeyPair subscriptionID managementCert DefaultConfig

/-- Function `NewAnonymousClient` from the source: `&client{client: http.DefaultClient}`,
every other field at its zero value. It returns a `Client` with no error
component in its Go signature, so the embedding is total. -/
def NewAnonymousClient : client :=
  { publishSettings := { SubscriptionID := "", SubscriptionCert := [], SubscriptionKey := [] },
    config := { ManagementURL := "", OperationPollInterval := 0, UserAgent := "",
                APIVersion := "", Client := none },
    httpClient := httpDefaultClient }

/-- A stand-in for `tls.X509KeyPair` that accepts any material, used to
instantiate theorems at concrete inputs. -/
def acceptAllKeyPair (certBytes keyBytes : List Nat) : Except String TLSCertificate :=
  Except.ok { certPEM := certBytes, keyPEM := keyBytes }

/-- A stand-in for `tls.X509KeyPair` that rejects any material, used to
instantiate theorems at concrete inputs. -/
def rejectAllKeyPair (_certBytes _keyBytes : List Nat) : Except String TLSCertificate :=
  Except.error "crypto/tls: failed to find any PEM data in certificate input"

/-! Section: the poll loop (`WaitForOperation`).

The implementation of `Client.WaitForOperation` (together with
`GetOperationStatus`) is declared in the `Client` interface of the
`management` package but its body is not among the sources at hand; the
definitions below are modelled from the spec's state machine for the poll
loop (states Polling, Succeeded, Failed, Cancelled, PollError). -/

/-- Outcome of one status query, as the poll loop distinguishes it:
the remote status was `InProgress`; the remote status was `Succeeded`; the
remote status was `Failed`, carrying the remote error code and message; or
the query itself failed (network/parse), carrying that error. -/
inductive QueryResult where
  | inProgress
  | succeeded
  | failed (code msg : String)
  | queryFailure (e : String)
deriving Repr, DecidableEq

/-- Result of the poll loop: `ok` (no error), an `OperationFailed` error
carrying the remote code and message, a poll/transport error, or the
distinct cancellation error. -/
inductive WaitResult where
  | ok
  | operationFailed (code msg : String)
  | pollError (e : String)
  | cancelled
deriving Repr, DecidableEq

/-- Modelled from the spec: the body of `Client.WaitForOperation` is not among
the sources (only its interface declaration is). One iteration of the poll
loop at iteration index `n` (which is also the number of status queries issued
so far): first the cancellation signal is checked (`cancelObserved n` says
whether it has been observed by then); if not cancelled, the `n`-th status
query is issued and its result dispatched per the spec's state machine —
`Succeeded` terminates with no error, `Failed` terminates with an
`OperationFailed` error carrying the remote code and message, a query failure
terminates immediately as a poll error (no built-in retry), and `InProgress`
suspends for the poll interval and loops. `fuel` bounds the number of
iterations the embedding unfolds; `none` means the loop was still running
("indefinitely") after `fuel` iterations. The returned `Nat` is the total
number of status queries issued. -/
def waitForOperationAux (cancelObserved : Nat → Bool) (query : Nat → QueryResult) :
    Nat → Nat → Option (WaitResult × Nat)
  | 0, _ => none
  | fuel + 1, n =>
    if cancelObserved n then
      some (WaitResult.cancelled, n)
    else
      match query n with
      | QueryResult.succeeded => some (WaitResult.ok, n + 1)
      | QueryResult.failed code msg => some (WaitResult.operationFailed code msg, n + 1)
      | QueryResult.queryFailure e => some (WaitResult.pollError e, n + 1)
      | QueryResult.inProgress => waitForOperationAux cancelObserved query fuel (n + 1)

/-- Modelled from the spec: `WaitForOperation(operationID, cancel)` as the poll
loop `waitForOperationAux` started at iteration 0. A `nil` cancel channel is
the constantly-false `cancelObserved`. -/
def WaitForOperation (cancelObserved : Nat → Bool) (query : Nat → QueryResult)
    (fuel : Nat) : Option (WaitResult × Nat) :=
  waitForOperationAux cancelObserved query fuel 0

end Management

namespace Logic

/-! Section: the generated `logic` package, `WorkflowRunsClient`.

Only the error-wrapping plumbing of `Cancel`, `Get` and `List` is embedded;
the `autorest` preparer/sender/responder collaborators are external (vendored)
code and enter as oracle parameters. -/

/-- An `*http.Request`, as far as this embedding needs it. -/
structure HttpRequest where
  method : String
  url : String
deriving Repr, DecidableEq

/-- An `*http.Response`, as far as this embedding needs it. -/
structure HttpResponse where
  statusCode : Nat
  body : String
deriving Repr, DecidableEq

/-- Structure `autorest.Error` as built by `autorest.NewErrorWithError`: the wrapped
original error plus the package type, method name and message supplied at the
wrapping site. -/
structure AutorestError where
  original : String
  packageType : String
  method : String
  message : String
deriving Repr, DecidableEq

/-- Function `autorest.NewErrorWithError(err, packageType, method, message)`. -/
def NewErrorWithError (original packageType method message : String) : AutorestError :=
  { original := original, packageType := packageType, method := method, message := message }

/-- Structure `autorest.Response`: wraps the `*http.Response` (`none` for Go `nil`). -/
structure AutorestResponse where
  Response : Option HttpResponse
deriving Repr, DecidableEq

/-- Structure `WorkflowRun`: the JSON-decoded payload (kept opaque) plus the embedded
`autorest.Response`. -/
structure WorkflowRun where
  payload : String
  Response : AutorestResponse
deriving Repr, DecidableEq

/-- Structure `WorkflowRunListResult`: the JSON-decoded list payload (kept opaque) plus
the embedded `autorest.Response`. -/
structure WorkflowRunListResult where
  payload : String
  Response : AutorestResponse
deriving Repr, DecidableEq

/-- Method `WorkflowRunsClient.Cancel` from the source, with the three phases as
oracles: `prep` is `CancelPreparer`'s outcome, `send` is `CancelSender`,
`respond` is `CancelResponder`'s error outcome (the responder always stores
the response in the result, error or not). Returns the Go pair
`(result autorest.Response, ae error)`. -/
def Cancel (prep : Except String HttpRequest)
    (send : HttpRequest → Except String HttpResponse)
    (respond : HttpResponse → Option String) :
    AutorestResponse × Option AutorestError :=
  match prep with
  | Except.error err =>
      (⟨none⟩, some (NewErrorWithError err "logic/WorkflowRunsClient" "Cancel"
        "Failure preparing request"))
  | Except.ok req =>
    match send req with
    | Except.error err =>
        (⟨none⟩, some (NewErrorWithError err "logic/WorkflowRunsClient" "Cancel"
          "Failure sending request"))
    | Except.ok resp =>
      match respond resp with
      | some err =>
          (⟨some resp⟩, some (NewErrorWithError err "logic/WorkflowRunsClient" "Cancel"
            "Failure responding to request"))
      | none => (⟨some resp⟩, none)

/-- Method `WorkflowRunsClient.Get` from the source, phases as oracles; `respond`
is `GetResponder`, yielding the unmarshalled payload or an error (on error the
result keeps its zero payload, and the response is stored either way). -/
def Get (prep : Except String HttpRequest)
    (send : HttpRequest → Except String HttpResponse)
    (respond : HttpResponse → Except String String) :
    WorkflowRun × Option AutorestError :=
  match prep with
  | Except.error err =>
      (⟨"", ⟨none⟩⟩, some (NewErrorWithError err "logic/WorkflowRunsClient" "Get"
        "Failure preparing request"))
  | Except.ok req =>
    match send req with
    | Except.error err =>
        (⟨"", ⟨none⟩⟩, some (NewErrorWithError err "logic/WorkflowRunsClient" "Get"
          "Failure sending request"))
    | Except.ok resp =>
      match respond resp with
      | Except.error err =>
          (⟨"", ⟨some resp⟩⟩, some (NewErrorWithError err "logic/WorkflowRunsClient" "Get"
            "Failure responding to request"))
      | Except.ok p => (⟨p, ⟨some resp⟩⟩, none)

/-- Method `WorkflowRunsClient.List` from the source, phases as oracles; `respond`
is `ListResponder`, yielding the unmarshalled payload or an error. -/
def List (prep : Except String HttpRequest)
    (send : HttpRequest → Except String HttpResponse)
    (respond : HttpResponse → Except String String) :
    WorkflowRunListResult × Option AutorestError :=
  match prep with
  | Except.error err =>
      (⟨"", ⟨none⟩⟩, some (NewErrorWithError err "logic/WorkflowRunsClient" "List"
        "Failure preparing request"))
  | Except.ok req =>
    match send req with
    | Except.error err =>
        (⟨"", ⟨none⟩⟩, some (NewErrorWithError err "logic/WorkflowRunsClient" "List"
          "Failure sending request"))
    | Except.ok resp =>
      match respond resp with
      | Except.error err =>
          (⟨"", ⟨some resp⟩⟩, some (NewErrorWithError err "logic/WorkflowRunsClient" "List"
            "Failure responding to request"))
      | Except.ok p => (⟨p, ⟨some resp⟩⟩, none)

end Logic

namespace Management

/-- The five configuration-error messages that `makeClient` can produce itself
(as opposed to errors passed through from `tls.X509KeyPair`). -/
def configurationErrorMessages : List String :=
  ["azure: subscription ID required",
   "azure: management certificate required",
   "azure: base URL required",
   "azure: operation polling interval must be a positive duration",
   "azure: client configuration must specify an API version"]

theorem makeClient_error_of_invalid
    (x509KeyPair : List Nat → List Nat → Except String TLSCertificate)
    (subscriptionID : String) (managementCert : List Nat) (config : ClientConfig)
    (h : subscriptionID = "" ∨ managementCert = [] ∨ config.ManagementURL = "" ∨
      config.OperationPollInterval ≤ 0 ∨ config.APIVersion = "") :
    ∃ e, e ∈ configurationErrorMessages ∧
      (makeClient x509KeyPair subscriptionID managementCert config).1 = Except.error e := by
  by_cases h1 : subscriptionID = ""
  · exact ⟨"azure: subscription ID required", by simp [configurationErrorMessages],
      by simp [makeClient, h1]⟩
  by_cases h2 : managementCert.length = 0
  · exact ⟨"azure: management certificate required", by simp [configurationErrorMessages],
      by simp [makeClient, h1, h2]⟩
  by_cases h3 : config.ManagementURL = ""
  · exact ⟨"azure: base URL required", by simp [configurationErrorMessages],
      by simp [makeClient, h1, h2, h3]⟩
  by_cases h4 : config.OperationPollInterval ≤ 0
  · exact ⟨"azure: operation polling interval must be a positive duration",
      by simp [configurationErrorMessages], by simp [makeClient, h1, h2, h3, h4]⟩
  by_cases h5 : config.APIVersion = ""
  · exact ⟨"azure: client configuration must specify an API version",
      by simp [configurationErrorMessages], by simp [makeClient, h1, h2, h3, h4, h5]⟩
  exfalso
  rcases h with h | h | h | h | h <;> simp_all [List.length_eq_zero]

theorem makeClient_ok_of_valid
    (x509KeyPair : List Nat → List Nat → Except String TLSCertificate)
    (subscriptionID : String) (managementCert : List Nat) (config : ClientConfig)
    (kp : TLSCertificate)
    (h1 : ¬subscriptionID = "") (h2 : ¬managementCert = [])
    (h3 : x509KeyPair managementCert managementCert = Except.ok kp)
    (h4 : ¬config.ManagementURL = "") (h5 : 0 < config.OperationPollInterval)
    (h6 : ¬config.APIVersion = "") :
    makeClient x509KeyPair subscriptionID managementCert config =
      (Except.ok
        { publishSettings :=
            { SubscriptionID := subscriptionID, SubscriptionCert := managementCert,
              SubscriptionKey := managementCert },
          config :=
            if config.UserAgent = "" then { config with UserAgent := DefaultUserAgent }
            else config,
          httpClient :=
            setTransportCert kp
              (config.Client.getD { Transport := some (Transport.httpTransport none) }) },
       config.Client.map (setTransportCert kp)) := by
  have h2' : ¬managementCert.length = 0 := by simpa [List.length_eq_zero] using h2
  have h5' : ¬config.OperationPollInterval ≤ 0 := not_le.mpr h5
  by_cases h7 : config.UserAgent = "" <;>
    cases hC : config.Client <;>
      simp [makeClient, h1, h2', h4, h5', h6, h3, h7, hC, Option.getD]

end Management

/-- C1: for every input where the subscription ID is empty, the certificate is
empty, the config's `ManagementURL` is empty, the config's
`OperationPollInterval` is non-positive, or the config's `APIVersion` is empty,
client construction (`NewClientFromConfig`, and `NewClient` for the conditions
that apply to it) returns one of the construction-time configuration errors;
the `Except.error` result is the Go `(nil, err)` return, so no client is
returned. -/
theorem claim1_invalid_inputs_fail_with_config_error
    (x509KeyPair : List Nat → List Nat → Except String Management.TLSCertificate)
    (subscriptionID : String) (managementCert : List Nat) (config : Management.ClientConfig)
    (h : subscriptionID = "" ∨ managementCert = [] ∨ config.ManagementURL = "" ∨
      config.OperationPollInterval ≤ 0 ∨ config.APIVersion = "") :
    (∃ e, e ∈ Management.configurationErrorMessages ∧
      (Management.NewClientFromConfig x509KeyPair subscriptionID managementCert config).1 =
        Except.error e) ∧
    (subscriptionID = "" ∨ managementCert = [] →
      ∃ e, e ∈ Management.configurationErrorMessages ∧
        (Management.NewClient x509KeyPair subscriptionID managementCert).1 = Except.error e) := by
  constructor
  · exact Management.makeClient_error_of_invalid x509KeyPair subscriptionID managementCert
      config h
  · intro h'
    exact Management.makeClient_error_of_invalid x509KeyPair subscriptionID managementCert
      Management.DefaultConfig (h'.imp id Or.inl)

/-- Witness for C1: empty subscription ID and empty certificate, with the
default configuration; both constructors fail with a configuration error. -/
theorem claim1_witness :
    (∃ e, e ∈ Management.configurationErrorMessages ∧
      (Management.NewClientFromConfig Management.acceptAllKeyPair "" []
        Management.DefaultConfig).1 = Except.error e) ∧
    (∃ e, e ∈ Management.configurationErrorMessages ∧
      (Management.NewClient Management.acceptAllKeyPair "" []).1 = Except.error e) := by
  have h := claim1_invalid_inputs_fail_with_config_error Management.acceptAllKeyPair "" []
    Management.DefaultConfig (Or.inl rfl)
  exact ⟨h.1, h.2 (Or.inl rfl)⟩

/-- C2: for every valid input triple (non-empty subscription ID, non-empty
certificate material that `tls.X509KeyPair` parses as a key pair, config
passing validation), construction succeeds, and the returned client's stored
configuration fields equal the given config, except that an empty `UserAgent`
is replaced by the default user-agent string. -/
theorem claim2_valid_inputs_yield_client_with_given_config
    (x509KeyPair : List Nat → List Nat → Except String Management.TLSCertificate)
    (subscriptionID : String) (managementCert : List Nat) (config : Management.ClientConfig)
    (kp : Management.TLSCertificate)
    (h1 : ¬subscriptionID = "") (h2 : ¬managementCert = [])
    (h3 : x509KeyPair managementCert managementCert = Except.ok kp)
    (h4 : ¬config.ManagementURL = "") (h5 : 0 < config.OperationPollInterval)
    (h6 : ¬config.APIVersion = "") :
    ∃ cl, (Management.NewClientFromConfig x509KeyPair subscriptionID managementCert
        config).1 = Except.ok cl ∧
      cl.config.ManagementURL = config.ManagementURL ∧
      cl.config.OperationPollInterval = config.OperationPollInterval ∧
      cl.config.APIVersion = config.APIVersion ∧
      cl.config.Client = config.Client ∧
      cl.config.UserAgent =
        (if config.UserAgent = "" then Management.DefaultUserAgent else config.UserAgent) := by
  have h := Management.makeClient_ok_of_valid x509KeyPair subscriptionID managementCert
    config kp h1 h2 h3 h4 h5 h6
  refine ⟨{ publishSettings :=
              { SubscriptionID := subscriptionID, SubscriptionCert := managementCert,
                SubscriptionKey := managementCert },
            config :=
              if config.UserAgent = "" then
                { config with UserAgent := Management.DefaultUserAgent }
              else config,
            httpClient :=
              Management.setTransportCert kp
                (config.Client.getD
                  { Transport := some (Management.Transport.httpTransport none) }) },
    ?_, ?_, ?_, ?_, ?_, ?_⟩
  · show (Management.makeClient x509KeyPair subscriptionID managementCert config).1 = _
    rw [h]
  all_goals by_cases h7 : config.UserAgent = "" <;> simp [h7]

/-- Witness for C2: a concrete valid triple with an empty user agent; the
stored configuration equals the input with the user agent defaulted. -/
theorem claim2_witness :
    ∃ cl, (Management.NewClientFromConfig Management.acceptAllKeyPair "subscription-1" [1, 2]
        { ManagementURL := "https://example.invalid", OperationPollInterval := 1,
          UserAgent := "", APIVersion := "2014-10-01", Client := none }).1 = Except.ok cl ∧
      cl.config.ManagementURL = "https://example.invalid" ∧
      cl.config.OperationPollInterval = 1 ∧
      cl.config.APIVersion = "2014-10-01" ∧
      cl.config.Client = none ∧
      cl.config.UserAgent =
        (if "" = "" then Management.DefaultUserAgent else "") :=
  claim2_valid_inputs_yield_client_with_given_config Management.acceptAllKeyPair
    "subscription-1" [1, 2]
    { ManagementURL := "https://example.invalid", OperationPollInterval := 1,
      UserAgent := "", APIVersion := "2014-10-01", Client := none }
    { certPEM := [1, 2], keyPEM := [1, 2] }
    (by decide) (by decide) rfl (by decide) (by decide) (by decide)

/-- C7: `DefaultConfig` sets the management URL to the fixed production
endpoint, the operation poll interval to 30 seconds, the API version to the
fixed date-stamped version string, and the user agent to the default
user-agent string; and `NewClient subscriptionID cert` behaves identically to
`NewClientFromConfig subscriptionID cert DefaultConfig`. -/
theorem claim7_default_config_and_new_client_equivalence :
    Management.DefaultConfig.ManagementURL = "https://management.core.windows.net" ∧
    Management.DefaultConfig.OperationPollInterval = 30 * Management.timeSecond ∧
    Management.DefaultConfig.APIVersion = "2014-10-01" ∧
    Management.DefaultConfig.UserAgent = Management.DefaultUserAgent ∧
    Management.DefaultUserAgent = "azure-sdk-for-go" ∧
    ∀ (x509KeyPair : List Nat → List Nat → Except String Management.TLSCertificate)
      (subscriptionID : String) (managementCert : List Nat),
      Management.NewClient x509KeyPair subscriptionID managementCert =
        Management.NewClientFromConfig x509KeyPair subscriptionID managementCert
          Management.DefaultConfig :=
  ⟨rfl, by decide, rfl, rfl, rfl, fun _ _ _ => rfl⟩

/-- C10: `NewAnonymousClient` always succeeds — its Go signature returns only
a `Client`, with no error component, which the embedding reflects by a total
function into `client` — and it bypasses construction-time validation: the
returned client carries an entirely zero-valued configuration (empty
management URL, zero poll interval, empty API version, empty user agent, no
caller-supplied HTTP client), zero-valued publish settings (no credentials),
and the process-wide default HTTP client `http.DefaultClient`. -/
theorem claim10_anonymous_client_zero_valued :
    Management.NewAnonymousClient.config.ManagementURL = "" ∧
    Management.NewAnonymousClient.config.OperationPollInterval = 0 ∧
    Management.NewAnonymousClient.config.APIVersion = "" ∧
    Management.NewAnonymousClient.config.UserAgent = "" ∧
    Management.NewAnonymousClient.config.Client = none ∧
    Management.NewAnonymousClient.publishSettings =
      { SubscriptionID := "", SubscriptionCert := [], SubscriptionKey := [] } ∧
    Management.NewAnonymousClient.httpClient = Management.httpDefaultClient :=
  ⟨rfl, rfl, rfl, rfl, rfl, rfl, rfl⟩

/-- Counterexample to C6 as stated: a concrete input whose user agent is empty
but which passes every other check; construction succeeds (returning a client
whose stored user agent is the default), so an empty user agent does not make
construction fail. -/
theorem claim6_counterexample :
    (Management.NewClientFromConfig Management.acceptAllKeyPair "subscription-6" [4]
      { ManagementURL := "https://example.invalid", OperationPollInterval := 2,
        UserAgent := "", APIVersion := "2014-10-01", Client := none }).1 =
    Except.ok
      { publishSettings :=
          { SubscriptionID := "subscription-6", SubscriptionCert := [4],
            SubscriptionKey := [4] },
        config :=
          { ManagementURL := "https://example.invalid", OperationPollInterval := 2,
            UserAgent := Management.DefaultUserAgent, APIVersion := "2014-10-01",
            Client := none },
        httpClient :=
          { Transport := some (Management.Transport.httpTransport
              (some { Certificates := [{ certPEM := [4], keyPEM := [4] }] })) } } := by
  rfl

/-- C6 (amended): the base URL and the API version must be non-empty and this
is validated at client construction — construction fails whenever either is
empty — while an empty user agent does not fail construction: it is replaced
by the default user-agent string in the stored configuration. -/
theorem claim6_url_and_api_version_validated_user_agent_defaulted
    (x509KeyPair : List Nat → List Nat → Except String Management.TLSCertificate)
    (subscriptionID : String) (managementCert : List Nat) (config : Management.ClientConfig)
    (kp : Management.TLSCertificate) :
    ((config.ManagementURL = "" ∨ config.APIVersion = "") →
      ∃ e, (Management.NewClientFromConfig x509KeyPair subscriptionID managementCert
        config).1 = Except.error e) ∧
    (¬subscriptionID = "" → ¬managementCert = [] →
      x509KeyPair managementCert managementCert = Except.ok kp →
      ¬config.ManagementURL = "" → 0 < config.OperationPollInterval →
      ¬config.APIVersion = "" → config.UserAgent = "" →
      ∃ cl, (Management.NewClientFromConfig x509KeyPair subscriptionID managementCert
          config).1 = Except.ok cl ∧
        cl.config.UserAgent = Management.DefaultUserAgent) := by
  constructor
  · intro h
    obtain ⟨e, -, he⟩ := Management.makeClient_error_of_invalid x509KeyPair subscriptionID
      managementCert config
      (h.elim (fun h' => Or.inr (Or.inr (Or.inl h')))
        (fun h' => Or.inr (Or.inr (Or.inr (Or.inr h')))))
    exact ⟨e, he⟩
  · intro h1 h2 h3 h4 h5 h6 h7
    have h := Management.makeClient_ok_of_valid x509KeyPair subscriptionID managementCert
      config kp h1 h2 h3 h4 h5 h6
    rw [if_pos h7] at h
    refine ⟨{ publishSettings :=
                { SubscriptionID := subscriptionID, SubscriptionCert := managementCert,
                  SubscriptionKey := managementCert },
              config := { config with UserAgent := Management.DefaultUserAgent },
              httpClient :=
                Management.setTransportCert kp
                  (config.Client.getD
                    { Transport := some (Management.Transport.httpTransport none) }) },
      ?_, rfl⟩
    show (Management.makeClient x509KeyPair subscriptionID managementCert config).1 = _
    rw [h]

/-- Witness for the amended C6: an empty base URL fails construction, and a
valid configuration with an empty user agent succeeds with the default user
agent stored. -/
theorem claim6_witness :
    (∃ e, (Management.NewClientFromConfig Management.acceptAllKeyPair "subscription-6b" [5]
      { ManagementURL := "", OperationPollInterval := 2, UserAgent := "ua",
        APIVersion := "2014-10-01", Client := none }).1 = Except.error e) ∧
    (∃ cl, (Management.NewClientFromConfig Management.acceptAllKeyPair "subscription-6b" [5]
        { ManagementURL := "https://example.invalid", OperationPollInterval := 2,
          UserAgent := "", APIVersion := "2014-10-01", Client := none }).1 =
            Except.ok cl ∧
      cl.config.UserAgent = Management.DefaultUserAgent) :=
  ⟨(claim6_url_and_api_version_validated_user_agent_defaulted Management.acceptAllKeyPair
      "subscription-6b" [5]
      { ManagementURL := "", OperationPollInterval := 2, UserAgent := "ua",
        APIVersion := "2014-10-01", Client := none }
      { certPEM := [5], keyPEM := [5] }).1 (Or.inl rfl),
   (claim6_url_and_api_version_validated_user_agent_defaulted Management.acceptAllKeyPair
      "subscription-6b" [5]
      { ManagementURL := "https://example.invalid", OperationPollInterval := 2,
        UserAgent := "", APIVersion := "2014-10-01", Client := none }
      { certPEM := [5], keyPEM := [5] }).2
    (by decide) (by decide) rfl (by decide) (by decide) (by decide) rfl⟩

/-- C9: whenever client construction returns an error, the caller-supplied
`config.Client` (and with it its transport) is left unmodified — the second
component of the embedded `makeClient`, the post-call value of the caller's
`config.Client`, equals the value passed in. The certificate is written
into the transport only on the success path, after all validation checks
and the key-pair parsing have succeeded. -/
theorem claim9_construction_error_leaves_transport_unmodified
    (x509KeyPair : List Nat → List Nat → Except String Management.TLSCertificate)
    (subscriptionID : String) (managementCert : List Nat) (config : Management.ClientConfig)
    (e : String)
    (h : (Management.makeClient x509KeyPair subscriptionID managementCert config).1 =
      Except.error e) :
    (Management.makeClient x509KeyPair subscriptionID managementCert config).2 =
      config.Client := by
  by_cases h1 : subscriptionID = ""
  · simp [Management.makeClient, h1]
  by_cases h2 : managementCert.length = 0
  · simp [Management.makeClient, h1, h2]
  by_cases h4 : config.ManagementURL = ""
  · simp [Management.makeClient, h1, h2, h4]
  by_cases h5 : config.OperationPollInterval ≤ 0
  · simp [Management.makeClient, h1, h2, h4, h5]
  by_cases h6 : config.APIVersion = ""
  · simp [Management.makeClient, h1, h2, h4, h5, h6]
  by_cases h7 : config.UserAgent = "" <;>
    cases hx : x509KeyPair managementCert managementCert with
    | error err => simp [Management.makeClient, h1, h2, h4, h5, h6, h7, hx]
    | ok kp =>
      exfalso
      simp [Management.makeClient, h1, h2, h4, h5, h6, h7, hx] at h

/-- Witness for C9: a caller-supplied HTTP client with a `*http.Transport`,
and a configuration with an empty base URL; construction errors and the
caller's client is returned untouched. -/
theorem claim9_witness :
    (Management.makeClient Management.acceptAllKeyPair "subscription-9" [3]
      { ManagementURL := "", OperationPollInterval := 5, UserAgent := "ua",
        APIVersion := "2014-10-01",
        Client := some { Transport := some (Management.Transport.httpTransport none) } }).2 =
    some { Transport := some (Management.Transport.httpTransport none) } :=
  claim9_construction_error_leaves_transport_unmodified Management.acceptAllKeyPair
    "subscription-9" [3]
    { ManagementURL := "", OperationPollInterval := 5, UserAgent := "ua",
      APIVersion := "2014-10-01",
      Client := some { Transport := some (Management.Transport.httpTransport none) } }
    "azure: base URL required" rfl

/-- C5, evaluated at the failing input: a valid construction whose
caller-supplied transport implements the capability matched by the second
case of the type switch (`http.Flusher`). Construction succeeds, but the
certificate is never handed to the transport — the `t.InjectCert(&cert)` call
in the source is commented out, so the case body does nothing and the
transport comes back exactly as supplied, holding no certificate by either
path, contrary to the claim (and to the source's own doc comment on the
`Client` config field). -/
theorem claim5_injection_capable_transport_gets_no_certificate :
    Management.makeClient Management.acceptAllKeyPair "subscription-5" [7]
      { ManagementURL := "https://example.invalid", OperationPollInterval := 1,
        UserAgent := "agent", APIVersion := "2014-10-01",
        Client := some { Transport := some (Management.Transport.flusher none) } } =
    (Except.ok
      { publishSettings :=
          { SubscriptionID := "subscription-5", SubscriptionCert := [7],
            SubscriptionKey := [7] },
        config :=
          { ManagementURL := "https://example.invalid", OperationPollInterval := 1,
            UserAgent := "agent", APIVersion := "2014-10-01",
            Client := some { Transport := some (Management.Transport.flusher none) } },
        httpClient := { Transport := some (Management.Transport.flusher none) } },
     some { Transport := some (Management.Transport.flusher none) }) := by
  rfl

/-- C3: `WaitForOperation`, called on an operation whose status query always
returns `Failed` (with a `nil` cancel channel, i.e. cancellation never
observed), terminates after exactly one status query and returns the
`OperationFailed` error carrying the remote failure code and message.
Settled against the spec-modelled poll loop. -/
theorem claim3_always_failed_one_query
    (fuel : Nat) (hf : 0 < fuel) (code msg : String) :
    Management.WaitForOperation (fun _ => false)
      (fun _ => Management.QueryResult.failed code msg) fuel =
      some (Management.WaitResult.operationFailed code msg, 1) := by
  cases fuel with
  | zero => exact absurd hf (by simp)
  | succ n => rfl

/-- Witness for C3 at fuel 1 and a concrete remote code and message. -/
theorem claim3_witness :
    Management.WaitForOperation (fun _ => false)
      (fun _ => Management.QueryResult.failed "InternalError" "boom") 1 =
      some (Management.WaitResult.operationFailed "InternalError" "boom", 1) :=
  claim3_always_failed_one_query 1 (by decide) "InternalError" "boom"

theorem waitForOperationAux_cancelled
    (cancelObserved : Nat → Bool) (query : Nat → Management.QueryResult) :
    ∀ (k fuel n : Nat), k < fuel →
      (∀ j, j < k → cancelObserved (n + j) = false ∧
        query (n + j) = Management.QueryResult.inProgress) →
      cancelObserved (n + k) = true →
      Management.waitForOperationAux cancelObserved query fuel n =
        some (Management.WaitResult.cancelled, n + k) := by
  intro k
  induction k with
  | zero =>
    intro fuel n hf hpre hc
    cases fuel with
    | zero => exact absurd hf (by simp)
    | succ m =>
      simp only [Nat.add_zero] at hc
      simp [Management.waitForOperationAux, hc]
  | succ k ih =>
    intro fuel n hf hpre hc
    cases fuel with
    | zero => exact absurd hf (by simp)
    | succ m =>
      have h0 := hpre 0 (Nat.succ_pos k)
      simp only [Nat.add_zero] at h0
      have hstep : Management.waitForOperationAux cancelObserved query (m + 1) n =
          Management.waitForOperationAux cancelObserved query m (n + 1) := by
        simp [Management.waitForOperationAux, h0.1, h0.2]
      rw [hstep]
      have hix : n + (k + 1) = (n + 1) + k := by omega
      rw [hix]
      exact ih m (n + 1) (by omega)
        (fun j hj => by
          have := hpre (j + 1) (by omega)
          have harith : n + (j + 1) = (n + 1) + j := by omega
          rwa [harith] at this)
        (by rwa [← hix])

/-- C4: once the spec-modelled `WaitForOperation` observes the caller's
cancellation signal — at iteration `k`, every earlier iteration having seen no
cancellation and an `InProgress` status — it returns the cancellation result
with a total query count of exactly `k`: the queries issued are precisely the
ones that preceded the observation, and none is issued afterwards. The
cancellation result is distinct from every `Failed`-status result and from
every poll/transport-error result. -/
theorem claim4_cancellation_issues_no_further_queries
    (cancelObserved : Nat → Bool) (query : Nat → Management.QueryResult)
    (k fuel : Nat) (hf : k < fuel)
    (hpre : ∀ j, j < k → cancelObserved j = false ∧
      query j = Management.QueryResult.inProgress)
    (hc : cancelObserved k = true) :
    Management.WaitForOperation cancelObserved query fuel =
      some (Management.WaitResult.cancelled, k) ∧
    (∀ code msg, Management.WaitResult.cancelled ≠
      Management.WaitResult.operationFailed code msg) ∧
    (∀ e, Management.WaitResult.cancelled ≠ Management.WaitResult.pollError e) := by
  refine ⟨?_, ⟨fun code msg h => Management.WaitResult.noConfusion h,
    fun e h => Management.WaitResult.noConfusion h⟩⟩
  have h := waitForOperationAux_cancelled cancelObserved query k fuel 0 hf
    (fun j hj => by simpa using hpre j hj) (by simpa using hc)
  simpa [Management.WaitForOperation] using h

/-- Witness for C4: the signal is observed from iteration 1 on, the first
query reports `InProgress`; the loop returns cancelled after exactly one
query. -/
theorem claim4_witness :
    Management.WaitForOperation (fun n => decide (1 ≤ n))
      (fun _ => Management.QueryResult.inProgress) 3 =
      some (Management.WaitResult.cancelled, 1) ∧
    (∀ code msg, Management.WaitResult.cancelled ≠
      Management.WaitResult.operationFailed code msg) ∧
    (∀ e, Management.WaitResult.cancelled ≠ Management.WaitResult.pollError e) :=
  claim4_cancellation_issues_no_further_queries (fun n => decide (1 ≤ n))
    (fun _ => Management.QueryResult.inProgress) 1 3 (by decide)
    (fun j hj => by
      have hj0 : j = 0 := by omega
      subst hj0
      exact ⟨rfl, rfl⟩)
    (by decide)

/-- The three phase messages used by the `WorkflowRunsClient` operations when
wrapping an error. -/
def logicPhaseMessages : List String :=
  ["Failure preparing request", "Failure sending request", "Failure responding to request"]

/-- C8: for every error returned by a `WorkflowRunsClient` operation
(`Cancel`, `Get`, `List`), over all behaviors of the preparer, sender and
responder phases, the error wraps an underlying failure together with the
client name `logic/WorkflowRunsClient`, the operation name, and one of the
three phase messages identifying which phase failed: preparing the request,
sending it, or responding to it. -/
theorem claim8_errors_carry_operation_and_phase
    (prepC : Except String Logic.HttpRequest)
    (sendC : Logic.HttpRequest → Except String Logic.HttpResponse)
    (respC : Logic.HttpResponse → Option String)
    (prepG : Except String Logic.HttpRequest)
    (sendG : Logic.HttpRequest → Except String Logic.HttpResponse)
    (respG : Logic.HttpResponse → Except String String)
    (prepL : Except String Logic.HttpRequest)
    (sendL : Logic.HttpRequest → Except String Logic.HttpResponse)
    (respL : Logic.HttpResponse → Except String String) :
    (∀ e, (Logic.Cancel prepC sendC respC).2 = some e →
      ∃ u phase, phase ∈ logicPhaseMessages ∧
        e = Logic.NewErrorWithError u "logic/WorkflowRunsClient" "Cancel" phase) ∧
    (∀ e, (Logic.Get prepG sendG respG).2 = some e →
      ∃ u phase, phase ∈ logicPhaseMessages ∧
        e = Logic.NewErrorWithError u "logic/WorkflowRunsClient" "Get" phase) ∧
    (∀ e, (Logic.List prepL sendL respL).2 = some e →
      ∃ u phase, phase ∈ logicPhaseMessages ∧
        e = Logic.NewErrorWithError u "logic/WorkflowRunsClient" "List" phase) := by
  refine ⟨?_, ?_, ?_⟩
  · intro e he
    cases hp : prepC with
    | error u =>
      simp [Logic.Cancel, hp] at he
      exact ⟨u, "Failure preparing request", by simp [logicPhaseMessages], he.symm⟩
    | ok req =>
      cases hs : sendC req with
      | error u =>
        simp [Logic.Cancel, hp, hs] at he
        exact ⟨u, "Failure sending request", by simp [logicPhaseMessages], he.symm⟩
      | ok resp =>
        cases hr : respC resp with
        | some u =>
          simp [Logic.Cancel, hp, hs, hr] at he
          exact ⟨u, "Failure responding to request", by simp [logicPhaseMessages], he.symm⟩
        | none => simp [Logic.Cancel, hp, hs, hr] at he
  · intro e he
    cases hp : prepG with
    | error u =>
      simp [Logic.Get, hp] at he
      exact ⟨u, "Failure preparing request", by simp [logicPhaseMessages], he.symm⟩
    | ok req =>
      cases hs : sendG req with
      | error u =>
        simp [Logic.Get, hp, hs] at he
        exact ⟨u, "Failure sending request", by simp [logicPhaseMessages], he.symm⟩
      | ok resp =>
        cases hr : respG resp with
        | error u =>
          simp [Logic.Get, hp, hs, hr] at he
          exact ⟨u, "Failure responding to request", by simp [logicPhaseMessages], he.symm⟩
        | ok p => simp [Logic.Get, hp, hs, hr] at he
  · intro e he
    cases hp : prepL with
    | error u =>
      simp [Logic.List, hp] at he
      exact ⟨u, "Failure preparing request", by simp [logicPhaseMessages], he.symm⟩
    | ok req =>
      cases hs : sendL req with
      | error u =>
        simp [Logic.List, hp, hs] at he
        exact ⟨u, "Failure sending request", by simp [logicPhaseMessages], he.symm⟩
      | ok resp =>
        cases hr : respL resp with
        | error u =>
          simp [Logic.List, hp, hs, hr] at he
          exact ⟨u, "Failure responding to request", by simp [logicPhaseMessages], he.symm⟩
        | ok p => simp [Logic.List, hp, hs, hr] at he

/-- Witness for C8: each operation run with a failing preparer returns the
wrapped error with the client name, the operation name and the preparing
phase message. -/
theorem claim8_witness :
    (∃ u phase, phase ∈ logicPhaseMessages ∧
      Logic.NewErrorWithError "boom" "logic/WorkflowRunsClient" "Cancel"
        "Failure preparing request" =
        Logic.NewErrorWithError u "logic/WorkflowRunsClient" "Cancel" phase) ∧
    (∃ u phase, phase ∈ logicPhaseMessages ∧
      Logic.NewErrorWithError "boom" "logic/WorkflowRunsClient" "Get"
        "Failure preparing request" =
        Logic.NewErrorWithError u "logic/WorkflowRunsClient" "Get" phase) ∧
    (∃ u phase, phase ∈ logicPhaseMessages ∧
      Logic.NewErrorWithError "boom" "logic/WorkflowRunsClient" "List"
        "Failure preparing request" =
        Logic.NewErrorWithError u "logic/WorkflowRunsClient" "List" phase) := by
  have h := claim8_errors_carry_operation_and_phase
    (Except.error "boom") (fun _ => Except.error "x") (fun _ => none)
    (Except.error "boom") (fun _ => Except.error "x") (fun _ => Except.ok "")
    (Except.error "boom") (fun _ => Except.error "x") (fun _ => Except.ok "")
  exact ⟨h.1 _ rfl, h.2.1 _ rfl, h.2.2 _ rfl⟩
